import Mathlib

/-
  Verification of the TWAMP ad-hoc benchmark orchestrator of vMark
  (frontend/src/components/TwampRunner.tsx) against its natural-language
  specification.  The React component is shallowly embedded: each source
  function becomes a pure Lean function; the browser environment (fetch
  results, timer races, user clicks) is passed in explicitly as data.
  JavaScript strings are Lean Strings, JavaScript numbers that matter are
  Int/Nat/Rat, and JavaScript truthiness of a string is nonemptiness.
-/

/-! ## Basic string machinery mirroring the JavaScript primitives used -/

/-- JavaScript `s.toLowerCase()` restricted to the ASCII case mapping,
which is all the source compares (the markers are plain ASCII). -/
def jsToLower (s : String) : String := String.mk (s.data.map Char.toLower)

/-- JavaScript `s.includes(pat)`: substring containment. -/
def jsIncludes (s pat : String) : Bool := decide (pat.data <:+: s.data)

/-- JavaScript truthiness of a string: nonempty. -/
def jsTruthy (s : String) : Bool := !(s == "")

theorem string_append_assoc (a b c : String) : (a ++ b) ++ c = a ++ (b ++ c) := by
  cases a; cases b; cases c
  exact congrArg String.mk (List.append_assoc _ _ _)

theorem string_append_left_ne_empty (s t : String) (h : s ≠ "") : s ++ t ≠ "" := by
  cases s with
  | mk ds =>
    cases t with
    | mk dt =>
      intro he
      apply h
      have hd : ds ++ dt = [] := congrArg String.data he
      have hds : ds = [] := (List.append_eq_nil.mp hd).1
      simp [hds]

/-! ## Shared enumerations (TwampRunner.tsx lines 59, 142, 241) -/

/-- Source `type IpVersion = 'ipv4' | 'ipv6'` (line 59). -/
inductive IpVersion
  | ipv4
  | ipv6
deriving DecidableEq

/-- The literal string stored in the `ipVersion` state and interpolated
into every command. -/
def IpVersion.token : IpVersion → String
  | .ipv4 => "ipv4"
  | .ipv6 => "ipv6"

/-- Source `type TestOutcome = 'completed' | 'stopped' | 'error' | 'running'`
(line 142), the value space of `testOutcomeRef`. -/
inductive TestOutcome
  | completed
  | stopped
  | error
  | running
deriving DecidableEq

/-- The reason argument of `stopAndCleanupProcesses`
(`'completed' | 'stopped' | 'error' | 'timeout'`, line 241). -/
inductive CleanupReason
  | completed
  | stopped
  | error
  | timeout
deriving DecidableEq

/-- The spec's `RunState` (spec section 3); the source represents the
terminal states through `testOutcomeRef` plus the sequential position
inside `handleSubmit`. -/
inductive RunState
  | Idle
  | StartingResponder
  | StartingSender
  | Running
  | Completed
  | Stopped
  | Errored
deriving DecidableEq

/-! ## Parameter validation (handleSubmit lines 351-352) -/

/-- JavaScript `parseInt(x, 10) || d`: an unparseable input (NaN, modelled
as `none`) or a parsed value of `0` (falsy) falls back to the default `d`. -/
def jsFalsyOr (d : Int) : Option Int → Int
  | none => d
  | some n => if n = 0 then d else n

/-- Source line 351: `Math.max(1, Math.min(10000, parseInt(count, 10) || 100))`. -/
def validCount (raw : Option Int) : Int := max 1 (min 10000 (jsFalsyOr 100 raw))

/-- Source line 352: `Math.max(10, Math.min(10000, parseInt(interval, 10) || 100))`. -/
def validInterval (raw : Option Int) : Int := max 10 (min 10000 (jsFalsyOr 100 raw))

/-- Source line 358: `validCount * validInterval + 2000` (the overall wait
budget, the spec's `max_wait_ms`). -/
def effectiveWaitTimeMs (count interval : Option Int) : Int :=
  validCount count * validInterval interval + 2000

/-! ## Command builders (handleSubmit lines 447-468, cleanup lines 263, 295) -/

/-- The collection of raw component inputs that `handleSubmit` reads. -/
structure SubmitInputs where
  senderNodeId : String
  responderNodeId : String
  responderIp : String
  ipVersion : IpVersion
  port : String
  count : Option Int
  interval : Option Int
  padding : String
  ttl : String
  tos : String
  doNotFragment : Bool

/-- Source lines 448-453: `responderCmdParts`. -/
def responderCmdParts (ipv : IpVersion) (port : String) : List String :=
  ["twamp " ++ ipv.token ++ " responder port " ++ port]

/-- Source line 455: `responderCmdParts.filter(part => part).join(' ')`. -/
def responderCommand (ipv : IpVersion) (port : String) : String :=
  String.intercalate " " ((responderCmdParts ipv port).filter jsTruthy)

/-- Source lines 457-465: `senderCmdParts`. -/
def senderCmdParts (inp : SubmitInputs) : List String :=
  [ "twamp " ++ inp.ipVersion.token ++ " sender destination-ip " ++ inp.responderIp
      ++ " port " ++ inp.port
  , "count " ++ toString (validCount inp.count)
  , "interval " ++ toString (validInterval inp.interval)
  , "padding " ++ inp.padding
  , "ttl " ++ inp.ttl
  , "tos " ++ inp.tos
  , if inp.ipVersion = IpVersion.ipv4 ∧ inp.doNotFragment = true then "do-not-fragment" else "" ]

/-- Source line 467: `senderCmdParts.filter(part => part).join(' ')`. -/
def senderCommand (inp : SubmitInputs) : String :=
  String.intercalate " " ((senderCmdParts inp).filter jsTruthy)

/-- The parameters cached in `lastRunParamsRef` (lines 168-174, set at 439-445). -/
structure RunParams where
  ipVersion : IpVersion
  port : String
  senderNodeId : String
  responderNodeId : String
  responderIp : String
deriving DecidableEq

/-- Source line 263 / 668: the responder-stop command string. -/
def stopResponderCommand (p : RunParams) : String :=
  "twamp " ++ p.ipVersion.token ++ " stop responder port " ++ p.port

/-- Source line 295 / 693: the sender-stop command string. -/
def stopSenderCommand (p : RunParams) : String :=
  "twamp " ++ p.ipVersion.token ++ " stop sender destination-ip " ++ p.responderIp
    ++ " port " ++ p.port

/-- The `lastRunParamsRef` value built at lines 439-445 of `handleSubmit`. -/
def lastRunParamsOf (inp : SubmitInputs) : RunParams :=
  { ipVersion := inp.ipVersion
  , port := inp.port
  , senderNodeId := inp.senderNodeId
  , responderNodeId := inp.responderNodeId
  , responderIp := inp.responderIp }

/-! ## Cleanup: stopAndCleanupProcesses (lines 241-336) -/

/-- The outcome of one cleanup fetch: it succeeds, returns an API error
(non-2xx, the thrown message), or is aborted by its own 5000 ms timer. -/
inductive StopResult
  | ok
  | apiError (msg : String)
  | timedOut
deriving DecidableEq

/-- Source line 268 / 299: `setTimeout(() => stopFetchController.abort(), 5000)`. -/
def cleanupCallTimeoutMs : Nat := 5000

/-- Error text accumulated for the responder stop call (lines 286-287). -/
def respStopErrText (nodeId : String) : StopResult → String
  | .ok => ""
  | .timedOut => "Stop command to responder " ++ nodeId ++ " timed out.\n"
  | .apiError m => "Failed to stop responder on " ++ nodeId ++ ": " ++ m ++ "\n"

/-- Error text accumulated for the sender stop call (lines 317-318). -/
def sendStopErrText (nodeId : String) : StopResult → String
  | .ok => ""
  | .timedOut => "Stop command to sender " ++ nodeId ++ " timed out.\n"
  | .apiError m => "Failed to stop sender on " ++ nodeId ++ ": " ++ m ++ "\n"

/-- The guard at line 248:
`!params || !params.responderNodeId || !params.senderNodeId || !params.responderIp || !params.port`
(negated: all parameters are present and truthy). -/
def paramsUsable : Option RunParams → Bool
  | none => false
  | some p =>
      jsTruthy p.responderNodeId && jsTruthy p.senderNodeId
        && jsTruthy p.responderIp && jsTruthy p.port

/-- The React state cells that cleanup may write through `setStatusMessage` /
`setError`; `testOutcome` is `testOutcomeRef.current`, which
`stopAndCleanupProcesses` never touches. -/
structure UiState where
  testOutcome : TestOutcome
  errorText : String
  statusText : String
deriving DecidableEq

/-- What cleanup did: the `execute` calls it issued (node id paired with the
command string, in order) and the accumulated `stopError` string; the spec's
`CleanupOutcome`. -/
structure CleanupOutcome where
  commands : List (String × String)
  stopError : String
deriving DecidableEq

/-- Source line 252-253: the missing-parameter message. -/
def missingParamsMsg : String :=
  "Cannot cleanup test processes: Missing parameters from the last run."

/-- `setError(prev => prev ? prev + sep + msg : msg)` style append used all
over the component. -/
def jsAppendLine (prev msg : String) : String := prev ++ "\n" ++ msg

/-- Shallow embedding of `stopAndCleanupProcesses(reason)` (lines 241-336).
The two fetch results are supplied by the environment.  It returns the
updated UI state together with the `CleanupOutcome`.  Structure mirrors the
source: bail out (adding the missing-parameter message to status and error
only when the reason is neither completed nor stopped) when the cached
parameters are unusable; otherwise always issue the responder stop, then
issue the sender stop only when the reason is not `completed`, accumulating
failure text into `stopError`; finally report the accumulated errors into
the error state, never touching `testOutcomeRef`. -/
def stopAndCleanupProcesses (reason : CleanupReason) (params : Option RunParams)
    (respRes sendRes : StopResult) (ui : UiState) : UiState × CleanupOutcome :=
  if paramsUsable params = false then
    if reason ≠ CleanupReason.completed ∧ reason ≠ CleanupReason.stopped then
      ({ ui with
          statusText := jsAppendLine ui.statusText missingParamsMsg
        , errorText := jsAppendLine ui.errorText missingParamsMsg }
      , { commands := [], stopError := "" })
    else
      (ui, { commands := [], stopError := "" })
  else
    match params with
    | none => (ui, { commands := [], stopError := "" })
    | some p =>
      let status1 := jsAppendLine ui.statusText "Attempting to stop processes on nodes..."
      let respErr := respStopErrText p.responderNodeId respRes
      let respCalls := [(p.responderNodeId, stopResponderCommand p)]
      let calls :=
        if reason ≠ CleanupReason.completed then
          respCalls ++ [(p.senderNodeId, stopSenderCommand p)]
        else respCalls
      let stopError :=
        if reason ≠ CleanupReason.completed then
          respErr ++ sendStopErrText p.senderNodeId sendRes
        else respErr
      if jsTruthy stopError then
        ({ ui with
            statusText := jsAppendLine status1 "Finished cleanup attempt with errors."
          , errorText :=
              if jsTruthy ui.errorText then jsAppendLine ui.errorText stopError.trim
              else stopError.trim }
        , { commands := calls, stopError := stopError })
      else
        ({ ui with
            statusText := jsAppendLine status1 "Node processes stopped successfully." }
        , { commands := calls, stopError := stopError })

/-! ## The run controller: handleSubmit (lines 340-628) -/

/-- Result of one `executeTest` call (lines 216-238): either the returned
output string (after the JSON-parse-or-raw step) or a thrown error message. -/
inductive ExecOutcome
  | output (s : String)
  | failed (msg : String)
deriving DecidableEq

/-- Which of the three concurrent waits resolves first while the run is in
`Running` (spec section 5): a poll observing a terminal or unknown status,
a poll fetch failing, the overall timeout timer firing, or the user's stop
click. -/
inductive RunningEvent
  | pollCompleted
  | pollUnknown (info : String)
  | pollFailed (msg : String)
  | timerFired
  | cancelRequested
deriving DecidableEq

/-- The environment of one run: what the Gateway and the timers do. -/
structure RunEnv where
  responderStart : ExecOutcome
  senderStart : ExecOutcome
  firstEvent : RunningEvent
  cleanupRespRes : StopResult
  cleanupSendRes : StopResult
deriving DecidableEq

/-- The observable trace of one `handleSubmit` invocation. -/
structure RunTrace where
  finalState : RunState
  terminalReason : Option CleanupReason
  startCommands : List (String × String)
  senderStartCount : Nat
  cleanup : Option CleanupOutcome
  timerLengthMs : Option Int
deriving DecidableEq

/-- The success judgement at line 489 of `handleSubmit`:
`senderStartOutput.toLowerCase().includes('error') || !senderStartOutput.toLowerCase().includes('started successfully')`
throws; success is the negation (the `typeof !== 'string'` disjunct is
vacuous here because the embedded output is always a string). -/
def senderStartOk (out : String) : Bool :=
  !(jsIncludes (jsToLower out) "error") && jsIncludes (jsToLower out) "started successfully"

/-- Modelled from the spec: the body of the timeout promise at line 485 is
elided in the source (`/* ... refined timeout logic ... */`), as is the
timeout branch of the catch block at lines 618-619 (`// ... timeout
handling ...`).  Spec section 4.3: when the `max_wait_ms` timer fires
before polling observes a terminal status, the run transitions to
`Errored` with reason `timeout` and cleanup still runs. -/
def timeoutOutcome : RunState × CleanupReason := (RunState.Errored, CleanupReason.timeout)

/-- Modelled from the spec: the non-timeout, non-abort error branch of the
catch block at lines 622-624 is elided in the source (`// ... other error
handling ...`).  Spec section 4.3: a responder-start failure or a
sender-start failure drives the run to `Errored` and runs
cleanup(reason=error). -/
def startFailureOutcome : RunState × CleanupReason := (RunState.Errored, CleanupReason.error)

/-- Shallow embedding of `handleSubmit` (lines 340-628) together with the
polling callback it installs (lines 499-596).  The branches follow the
source: bail out when a node id is missing (line 346); cache
`lastRunParamsRef`; send the responder start and, only if it did not throw,
the sender start; judge the sender output (line 489); then let the first
resolved event of the running phase pick the terminal transition.  The
terminal handling of poll outcomes (lines 526-594) is source; the timeout
and start-failure terminal outcomes are taken from `timeoutOutcome` and
`startFailureOutcome` because their source bodies are elided. -/
def handleSubmitRun (inp : SubmitInputs) (env : RunEnv) : RunTrace :=
  if jsTruthy inp.senderNodeId = false ∨ jsTruthy inp.responderNodeId = false then
    { finalState := RunState.Idle, terminalReason := none, startCommands := []
    , senderStartCount := 0, cleanup := none, timerLengthMs := none }
  else
    let params := lastRunParamsOf inp
    let respCmd := responderCommand inp.ipVersion inp.port
    let sendCmd := senderCommand inp
    let cleanupFor := fun (r : CleanupReason) =>
      (stopAndCleanupProcesses r (some params) env.cleanupRespRes env.cleanupSendRes
        { testOutcome := TestOutcome.error, errorText := "", statusText := "" }).2
    match env.responderStart with
    | ExecOutcome.failed _ =>
      { finalState := startFailureOutcome.1
      , terminalReason := some startFailureOutcome.2
      , startCommands := [(inp.responderNodeId, respCmd)]
      , senderStartCount := 0
      , cleanup := some (cleanupFor startFailureOutcome.2)
      , timerLengthMs := none }
    | ExecOutcome.output _ =>
      match env.senderStart with
      | ExecOutcome.failed _ =>
        { finalState := startFailureOutcome.1
        , terminalReason := some startFailureOutcome.2
        , startCommands := [(inp.responderNodeId, respCmd), (inp.senderNodeId, sendCmd)]
        , senderStartCount := 1
        , cleanup := some (cleanupFor startFailureOutcome.2)
        , timerLengthMs := none }
      | ExecOutcome.output out =>
        if senderStartOk out = false then
          { finalState := startFailureOutcome.1
          , terminalReason := some startFailureOutcome.2
          , startCommands := [(inp.responderNodeId, respCmd), (inp.senderNodeId, sendCmd)]
          , senderStartCount := 1
          , cleanup := some (cleanupFor startFailureOutcome.2)
          , timerLengthMs := none }
        else
          let started := [(inp.responderNodeId, respCmd), (inp.senderNodeId, sendCmd)]
          let timer := some (effectiveWaitTimeMs inp.count inp.interval)
          match env.firstEvent with
          | RunningEvent.pollCompleted =>
            { finalState := RunState.Completed
            , terminalReason := some CleanupReason.completed
            , startCommands := started
            , senderStartCount := 1
            , cleanup := some (cleanupFor CleanupReason.completed)
            , timerLengthMs := timer }
          | RunningEvent.pollUnknown _ =>
            { finalState := RunState.Errored
            , terminalReason := some CleanupReason.error
            , startCommands := started
            , senderStartCount := 1
            , cleanup := some (cleanupFor CleanupReason.error)
            , timerLengthMs := timer }
          | RunningEvent.pollFailed _ =>
            { finalState := RunState.Errored
            , terminalReason := some CleanupReason.error
            , startCommands := started
            , senderStartCount := 1
            , cleanup := some (cleanupFor CleanupReason.error)
            , timerLengthMs := timer }
          | RunningEvent.timerFired =>
            { finalState := timeoutOutcome.1
            , terminalReason := some timeoutOutcome.2
            , startCommands := started
            , senderStartCount := 1
            , cleanup := some (cleanupFor timeoutOutcome.2)
            , timerLengthMs := timer }
          | RunningEvent.cancelRequested =>
            { finalState := RunState.Stopped
            , terminalReason := some CleanupReason.stopped
            , startCommands := started
            , senderStartCount := 1
            , cleanup := none
            , timerLengthMs := timer }

/-! ## Cancellation: handleStopClick (lines 631-725) -/

/-- Observable actions of the stop handler, in program order. -/
inductive UiAction
  | recordOutcome (o : TestOutcome)
  | clearPolling
  | abortSignal (controller : Nat)
  | clearProgressTimer
  | execCall (nodeId cmd : String)
deriving DecidableEq

/-- The mutable refs `handleStopClick` reads: `testOutcomeRef`,
`pollingIntervalRef`, `progressIntervalRef`, `abortControllerRef`
(controllers are numbered; `none` is a null ref) and `lastRunParamsRef`. -/
structure UiRefs where
  testOutcome : TestOutcome
  pollingActive : Bool
  progressActive : Bool
  abortRef : Option Nat
  lastRunParams : Option RunParams
deriving DecidableEq

/-- Nowhere in `handleSubmit` (or anywhere else in the component) is
`abortControllerRef.current` ever assigned: every start fetch and every
poll fetch is instead given the signal of a freshly constructed controller
(`new AbortController().signal`, lines 473, 479, 484, 500, 515), so the
ref still holds its initial `null` while a run is in flight. -/
def abortRefDuringRun : Option Nat := none

/-- Shallow embedding of `handleStopClick` (lines 631-725).  A no-op when
`testOutcomeRef.current !== 'running'` (line 633); otherwise it records
`'stopped'`, clears the polling interval, calls `.abort()` on whatever
controller `abortControllerRef` holds, clears the progress timer, and then
sends the responder-stop and sender-stop commands (bailing out of the
sends when the cached parameters are unusable, line 659). -/
def handleStopClick (r : UiRefs) (_respRes _sendRes : StopResult) : UiRefs × List UiAction :=
  if r.testOutcome ≠ TestOutcome.running then (r, [])
  else
    let acts0 := [UiAction.recordOutcome TestOutcome.stopped, UiAction.clearPolling]
    let acts1 := acts0 ++
      (match r.abortRef with
       | some c => [UiAction.abortSignal c]
       | none => [])
    let acts2 := acts1 ++
      (if r.progressActive then [UiAction.clearProgressTimer] else [])
    let r1 := { r with
        testOutcome := TestOutcome.stopped
      , pollingActive := false
      , progressActive := false }
    if paramsUsable r.lastRunParams = false then
      (r1, acts2)
    else
      match r.lastRunParams with
      | none => (r1, acts2)
      | some p =>
        (r1, acts2
          ++ [UiAction.execCall p.responderNodeId (stopResponderCommand p)]
          ++ [UiAction.execCall p.senderNodeId (stopSenderCommand p)])

/-- Recognises an abort action. -/
def isAbortAction : UiAction → Bool
  | UiAction.abortSignal _ => true
  | _ => false

/-- Recognises an execute (stop-command) action. -/
def isExecAction : UiAction → Bool
  | UiAction.execCall _ _ => true
  | _ => false

/-! ## Result formatter: formatTwampResults (lines 23-56) -/

/-- A JavaScript number as the formatter sees it: finite (modelled as a
rational) or one of the non-finite values that `isFinite` rejects. -/
inductive JsNumber
  | num (q : ℚ)
  | nan
  | posInf
  | negInf
deriving DecidableEq

/-- JavaScript `isFinite`. -/
def JsNumber.isFinite : JsNumber → Bool
  | .num _ => true
  | _ => false

/-- Zero-pads a digit string on the left to width `k`. -/
def zeroPad (k : Nat) (s : String) : String :=
  if k ≤ s.length then s else String.mk (List.replicate (k - s.length) '0') ++ s

/-- JavaScript `Number.prototype.toFixed(prec)` on a finite value,
modelled as decimal rounding (half away from zero) to `prec` digits. -/
def toFixed (prec : Nat) (q : ℚ) : String :=
  let scale : Nat := 10 ^ prec
  let scaled : ℚ := q * (scale : ℚ)
  let n : Int :=
    if 0 ≤ scaled then Rat.floor (scaled + 1/2) else -(Rat.floor (-scaled + 1/2))
  let sign := if n < 0 then "-" else ""
  let m := n.natAbs
  if prec = 0 then sign ++ toString m
  else sign ++ toString (m / scale) ++ "." ++ zeroPad prec (toString (m % scale))

/-- The raw result payload the formatter receives (`Record<string, any>`
holding the Gateway's `RunResult`): twelve optional duration fields in
microseconds, the loss percentage, the packet counters, and an optional
error string. -/
structure RunResult where
  outbound_min_us : Option JsNumber
  outbound_max_us : Option JsNumber
  outbound_avg_us : Option JsNumber
  outbound_jitter_us : Option JsNumber
  inbound_min_us : Option JsNumber
  inbound_max_us : Option JsNumber
  inbound_avg_us : Option JsNumber
  inbound_jitter_us : Option JsNumber
  roundtrip_min_us : Option JsNumber
  roundtrip_max_us : Option JsNumber
  roundtrip_avg_us : Option JsNumber
  roundtrip_jitter_us : Option JsNumber
  total_loss_percent : Option ℚ
  packets_rx : Option Int
  packets_tx : Option Int
  error : Option String
deriving DecidableEq

/-- Source lines 28-32, the helper `dp`: null/undefined or a non-finite
value renders as "N/A"; otherwise the microsecond value is divided by 1000
and rendered with `toFixed(prec)` plus an "ms" suffix. -/
def dp (val : Option JsNumber) (prec : Nat) : String :=
  match val with
  | none => "N/A"
  | some v =>
    match v with
    | JsNumber.num q => toFixed prec (q / 1000) ++ "ms"
    | _ => "N/A"

/-- Source lines 34-36: the loss column. -/
def lossText (r : RunResult) : String :=
  match r.total_loss_percent with
  | some q => toFixed 1 q ++ "%"
  | none => "N/A"

/-- Source lines 38-40: the received/transmitted packet column. -/
def pktsText (r : RunResult) : String :=
  match r.packets_rx, r.packets_tx with
  | some rx, some tx => toString rx ++ "/" ++ toString tx
  | _, _ => "N/A"

/-- Source line 41: the trailing total-packet fragment. -/
def totalPktsText (r : RunResult) : String :=
  match r.packets_tx with
  | some tx => " Total:" ++ toString tx
  | none => ""

/-- Source line 53: `results.error ? 'Error: ' + results.error + '\n' : ''`
(a present but empty error string is falsy and renders nothing). -/
def errLineText (r : RunResult) : String :=
  match r.error with
  | some e => if jsTruthy e then "Error: " ++ e ++ "\n" else ""
  | none => ""

/-- Shallow embedding of `formatTwampResults` (lines 23-56): the `!results`
guard, then the fixed report template with `dp`/loss/packets interpolations
and the conditional error line. -/
def formatTwampResults (results : Option RunResult) : String :=
  match results with
  | none => "No results data."
  | some r =>
    "\nSender output:\nDirection    Min      Max       Avg      Jitter    Loss     Pkts\n-----------------------------------------------------------------------\nOutbound:    "
      ++ dp r.outbound_min_us 2 ++ "   " ++ dp r.outbound_max_us 2 ++ "   "
      ++ dp r.outbound_avg_us 2 ++ "   " ++ dp r.outbound_jitter_us 2
      ++ "     N/A     N/A\nInbound:     "
      ++ dp r.inbound_min_us 2 ++ "   " ++ dp r.inbound_max_us 2 ++ "   "
      ++ dp r.inbound_avg_us 2 ++ "   " ++ dp r.inbound_jitter_us 2
      ++ "     N/A     " ++ pktsText r
      ++ "\nRoundtrip:   "
      ++ dp r.roundtrip_min_us 2 ++ "   " ++ dp r.roundtrip_max_us 2 ++ "   "
      ++ dp r.roundtrip_avg_us 2 ++ "   " ++ dp r.roundtrip_jitter_us 2
      ++ "     " ++ lossText r ++ "   " ++ totalPktsText r
      ++ "\n-----------------------------------------------------------------------\n"
      ++ errLineText r
      ++ "\n"

/-! ## Helper lemmas -/

theorem string_append_empty (s : String) : s ++ "" = s := by
  cases s with
  | mk ds => exact congrArg String.mk (List.append_nil ds)

theorem jsTruthy_of_ne (s : String) (h : s ≠ "") : jsTruthy s = true := by
  simp [jsTruthy, beq_eq_false_iff_ne.mpr h]

/-- Under usable parameters, cleanup issues exactly the responder stop, plus
the sender stop when the reason is not `completed`. -/
theorem stopAndCleanup_commands_eq (reason : CleanupReason) (p : RunParams)
    (respRes sendRes : StopResult) (ui : UiState)
    (h : paramsUsable (some p) = true) :
    (stopAndCleanupProcesses reason (some p) respRes sendRes ui).2.commands =
      if reason = CleanupReason.completed then
        [(p.responderNodeId, stopResponderCommand p)]
      else
        [(p.responderNodeId, stopResponderCommand p), (p.senderNodeId, stopSenderCommand p)] := by
  by_cases hr : reason = CleanupReason.completed <;>
    simp [stopAndCleanupProcesses, h, hr] <;> split <;> rfl

/-- Under usable parameters, the accumulated `stopError` is exactly the
responder failure text followed (when the sender stop was attempted) by the
sender failure text. -/
theorem stopAndCleanup_stopError_eq (reason : CleanupReason) (p : RunParams)
    (respRes sendRes : StopResult) (ui : UiState)
    (h : paramsUsable (some p) = true) :
    (stopAndCleanupProcesses reason (some p) respRes sendRes ui).2.stopError =
      respStopErrText p.responderNodeId respRes ++
        (if reason = CleanupReason.completed then ""
         else sendStopErrText p.senderNodeId sendRes) := by
  by_cases hr : reason = CleanupReason.completed <;>
    simp [stopAndCleanupProcesses, h, hr, string_append_empty] <;> split <;> rfl

/-- Cleanup never touches `testOutcomeRef`. -/
theorem stopAndCleanup_testOutcome (reason : CleanupReason) (params : Option RunParams)
    (respRes sendRes : StopResult) (ui : UiState) :
    (stopAndCleanupProcesses reason params respRes sendRes ui).1.testOutcome =
      ui.testOutcome := by
  unfold stopAndCleanupProcesses
  dsimp only
  repeat' split
  all_goals rfl

/-! ## Concrete values used by the closed witnesses -/

/-- A concrete cached-parameter record. -/
def demoParams : RunParams :=
  { ipVersion := IpVersion.ipv4, port := "5000", senderNodeId := "nodeA"
  , responderNodeId := "nodeB", responderIp := "10.0.0.2" }

/-- A concrete UI state at a terminal transition. -/
def demoUi : UiState :=
  { testOutcome := TestOutcome.error, errorText := "", statusText := "" }

/-! ## Claim C3 -/

/-- C3: For every terminal transition (any cleanup reason) with usable
cached parameters, cleanup always issues the responder-stop command to the
responder node, and issues the sender-stop command to the sender node if
and only if the terminal reason is not `completed`: the calls are exactly
the responder-stop, followed by the sender-stop when the reason is not
`completed`. -/
theorem C3_cleanup_sends (reason : CleanupReason) (p : RunParams)
    (respRes sendRes : StopResult) (ui : UiState)
    (h : paramsUsable (some p) = true) :
    ((p.responderNodeId, stopResponderCommand p)
        ∈ (stopAndCleanupProcesses reason (some p) respRes sendRes ui).2.commands) ∧
    (stopAndCleanupProcesses reason (some p) respRes sendRes ui).2.commands =
      (if reason = CleanupReason.completed then
        [(p.responderNodeId, stopResponderCommand p)]
      else
        [(p.responderNodeId, stopResponderCommand p), (p.senderNodeId, stopSenderCommand p)]) := by
  have hc := stopAndCleanup_commands_eq reason p respRes sendRes ui h
  refine ⟨?_, hc⟩
  rw [hc]
  by_cases hr : reason = CleanupReason.completed <;> simp [hr]

/-- Witness for C3 at a concrete timeout cleanup. -/
theorem C3_cleanup_sends_witness :
    paramsUsable (some demoParams) = true ∧
    ((demoParams.responderNodeId, stopResponderCommand demoParams)
        ∈ (stopAndCleanupProcesses CleanupReason.timeout (some demoParams)
            StopResult.ok StopResult.ok demoUi).2.commands) :=
  ⟨by decide
  , (C3_cleanup_sends CleanupReason.timeout demoParams StopResult.ok StopResult.ok demoUi
      (by decide)).1⟩

/-! ## Claim C4 -/

/-- C4: For every cleanup invocation and every combination of stop-call
failures or timeouts (each stop call bounded by its own 5000 ms timeout),
the failures are only accumulated into the cleanup error record — under
usable parameters `stopError` is exactly the responder failure text
followed, when the sender stop was attempted, by the sender failure text —
and the already-determined terminal state in `testOutcomeRef` is never
changed by cleanup. -/
theorem C4_cleanup_preserves_terminal_state (reason : CleanupReason)
    (params : Option RunParams) (respRes sendRes : StopResult) (ui : UiState) :
    (stopAndCleanupProcesses reason params respRes sendRes ui).1.testOutcome
        = ui.testOutcome ∧
    cleanupCallTimeoutMs = 5000 ∧
    (∀ p, params = some p → paramsUsable (some p) = true →
      (stopAndCleanupProcesses reason params respRes sendRes ui).2.stopError =
        respStopErrText p.responderNodeId respRes ++
          (if reason = CleanupReason.completed then ""
           else sendStopErrText p.senderNodeId sendRes)) := by
  refine ⟨stopAndCleanup_testOutcome reason params respRes sendRes ui, rfl, ?_⟩
  intro p hp h
  subst hp
  exact stopAndCleanup_stopError_eq reason p respRes sendRes ui h

/-- Witness for C4 at a concrete double-timeout cleanup. -/
theorem C4_cleanup_preserves_terminal_state_witness :
    (stopAndCleanupProcesses CleanupReason.error (some demoParams)
        StopResult.timedOut StopResult.timedOut demoUi).1.testOutcome
      = demoUi.testOutcome ∧
    (stopAndCleanupProcesses CleanupReason.error (some demoParams)
        StopResult.timedOut StopResult.timedOut demoUi).2.stopError =
      respStopErrText demoParams.responderNodeId StopResult.timedOut ++
        (if CleanupReason.error = CleanupReason.completed then ""
         else sendStopErrText demoParams.senderNodeId StopResult.timedOut) :=
  ⟨(C4_cleanup_preserves_terminal_state CleanupReason.error (some demoParams)
      StopResult.timedOut StopResult.timedOut demoUi).1
  , (C4_cleanup_preserves_terminal_state CleanupReason.error (some demoParams)
      StopResult.timedOut StopResult.timedOut demoUi).2.2 demoParams rfl (by decide)⟩

/-! ## Claim C10 -/

/-- C10: when any stored last-run parameter is missing or empty, cleanup
sends no stop command to either node and returns, and the
missing-parameter message is added to the visible error output exactly
when the terminal reason is neither `completed` nor `stopped`. -/
theorem C10_missing_params_no_stop (reason : CleanupReason)
    (params : Option RunParams) (respRes sendRes : StopResult) (ui : UiState)
    (h : paramsUsable params = false) :
    (stopAndCleanupProcesses reason params respRes sendRes ui).2.commands = [] ∧
    (stopAndCleanupProcesses reason params respRes sendRes ui).1.errorText =
      (if reason ≠ CleanupReason.completed ∧ reason ≠ CleanupReason.stopped then
        jsAppendLine ui.errorText missingParamsMsg
      else ui.errorText) := by
  by_cases hr : reason ≠ CleanupReason.completed ∧ reason ≠ CleanupReason.stopped <;>
    simp [stopAndCleanupProcesses, h, hr]

/-- Witness for C10: no parameters cached, reason `error`. -/
theorem C10_missing_params_no_stop_witness :
    (stopAndCleanupProcesses CleanupReason.error none
        StopResult.ok StopResult.ok demoUi).2.commands = [] ∧
    (stopAndCleanupProcesses CleanupReason.error none
        StopResult.ok StopResult.ok demoUi).1.errorText =
      (if CleanupReason.error ≠ CleanupReason.completed
          ∧ CleanupReason.error ≠ CleanupReason.stopped then
        jsAppendLine demoUi.errorText missingParamsMsg
      else demoUi.errorText) :=
  C10_missing_params_no_stop CleanupReason.error none StopResult.ok StopResult.ok demoUi rfl

/-! ## Claim C8 -/

/-- C8 counterexample: the claim says every `count < 1` is clamped to `1`,
but a raw count of `0` is falsy in `parseInt(count, 10) || 100`, so the
validated count is the default `100`, not the nearest bound `1`. -/
theorem C8_counterexample :
    (0 : Int) < 1 ∧ validCount (some 0) = 100 ∧ validCount (some 0) ≠ 1 := by
  decide

/-- C8 (amended): validation is total and clamps out-of-range inputs to
their nearest bound, except that a raw value of `0` (or an unparseable
one) falls back to the default `100` for both fields: `count > 10000`
clamps to `10000`; `count < 1` clamps to `1` unless the count is `0`,
which yields `100`; `interval > 10000` clamps to `10000`; `interval < 10`
clamps to `10` unless the interval is `0`, which yields `100`. -/
theorem C8_validator_clamps_amended (n : Int) :
    (10000 < n → validCount (some n) = 10000) ∧
    (n < 1 → validCount (some n) = if n = 0 then 100 else 1) ∧
    validCount none = 100 ∧
    (10000 < n → validInterval (some n) = 10000) ∧
    (n < 10 → validInterval (some n) = if n = 0 then 100 else 10) ∧
    validInterval none = 100 := by
  simp only [validCount, validInterval, jsFalsyOr]
  refine ⟨?_, ?_, by decide, ?_, ?_, by decide⟩ <;> intro h <;> split_ifs <;> omega

/-- Witness for C8 (amended) at counts 20000, -5, 0 and interval 3. -/
theorem C8_validator_clamps_amended_witness :
    validCount (some 20000) = 10000 ∧
    validCount (some (-5)) = (if (-5 : Int) = 0 then 100 else 1) ∧
    validCount (some 0) = (if (0 : Int) = 0 then 100 else 1) ∧
    validInterval (some 3) = (if (3 : Int) = 0 then 100 else 10) :=
  ⟨(C8_validator_clamps_amended 20000).1 (by decide)
  , (C8_validator_clamps_amended (-5)).2.1 (by decide)
  , (C8_validator_clamps_amended 0).2.1 (by decide)
  , (C8_validator_clamps_amended 3).2.2.2.2.1 (by decide)⟩

/-! ## Claim C7 -/

theorem glue_lit (a b c : String) (h : a ++ b = c) (t : String) :
    a ++ (b ++ t) = c ++ t := by
  rw [← string_append_assoc, h]

/-- C7: for every validated parameter set, the built sender-start command
is exactly the space-joined grammar string
`twamp <ip-version> sender destination-ip <ip> port <port> count <n>
interval <ms> padding <bytes> ttl <ttl> tos <tos> [do-not-fragment]`,
with the trailing `do-not-fragment` token present exactly when the IP
version is v4 and the do-not-fragment flag is set, and omitted entirely
otherwise. -/
theorem C7_sender_command_grammar (inp : SubmitInputs) :
    senderCommand inp =
      "twamp " ++ inp.ipVersion.token ++ " sender destination-ip " ++ inp.responderIp
        ++ " port " ++ inp.port
        ++ " count " ++ toString (validCount inp.count)
        ++ " interval " ++ toString (validInterval inp.interval)
        ++ " padding " ++ inp.padding
        ++ " ttl " ++ inp.ttl
        ++ " tos " ++ inp.tos
        ++ (if inp.ipVersion = IpVersion.ipv4 ∧ inp.doNotFragment = true
            then " do-not-fragment" else "") := by
  have h1 : jsTruthy ("twamp " ++ inp.ipVersion.token ++ " sender destination-ip "
      ++ inp.responderIp ++ " port " ++ inp.port) = true := by
    apply jsTruthy_of_ne
    apply string_append_left_ne_empty
    apply string_append_left_ne_empty
    apply string_append_left_ne_empty
    apply string_append_left_ne_empty
    apply string_append_left_ne_empty
    decide
  have h2 : jsTruthy ("count " ++ toString (validCount inp.count)) = true :=
    jsTruthy_of_ne _ (string_append_left_ne_empty _ _ (by decide))
  have h3 : jsTruthy ("interval " ++ toString (validInterval inp.interval)) = true :=
    jsTruthy_of_ne _ (string_append_left_ne_empty _ _ (by decide))
  have h4 : jsTruthy ("padding " ++ inp.padding) = true :=
    jsTruthy_of_ne _ (string_append_left_ne_empty _ _ (by decide))
  have h5 : jsTruthy ("ttl " ++ inp.ttl) = true :=
    jsTruthy_of_ne _ (string_append_left_ne_empty _ _ (by decide))
  have h6 : jsTruthy ("tos " ++ inp.tos) = true :=
    jsTruthy_of_ne _ (string_append_left_ne_empty _ _ (by decide))
  have hdfT : jsTruthy "do-not-fragment" = true := by decide
  have hempty : jsTruthy "" = false := by decide
  simp only [string_append_assoc] at h1
  by_cases hdf : inp.ipVersion = IpVersion.ipv4 ∧ inp.doNotFragment = true
  · simp only [senderCommand, senderCmdParts, if_pos hdf, List.filter,
      h1, h2, h3, h4, h5, h6, hdfT,
      String.intercalate, String.intercalate.go,
      string_append_assoc]
    rw [glue_lit " " "count " " count " (by decide),
        glue_lit " " "interval " " interval " (by decide),
        glue_lit " " "padding " " padding " (by decide),
        glue_lit " " "ttl " " ttl " (by decide),
        glue_lit " " "tos " " tos " (by decide)]
    have e7 : (" " ++ "do-not-fragment" : String) = " do-not-fragment" := by decide
    rw [e7]
  · simp only [senderCommand, senderCmdParts, if_neg hdf, List.filter,
      h1, h2, h3, h4, h5, h6, hempty,
      String.intercalate, String.intercalate.go,
      string_append_assoc, string_append_empty]
    rw [glue_lit " " "count " " count " (by decide),
        glue_lit " " "interval " " interval " (by decide),
        glue_lit " " "padding " " padding " (by decide),
        glue_lit " " "ttl " " ttl " (by decide),
        glue_lit " " "tos " " tos " (by decide)]

/-! ## Claims C1, C5, C6 -/

theorem lastRunParams_usable (inp : SubmitInputs)
    (hs : jsTruthy inp.senderNodeId = true) (hr : jsTruthy inp.responderNodeId = true)
    (hip : jsTruthy inp.responderIp = true) (hport : jsTruthy inp.port = true) :
    paramsUsable (some (lastRunParamsOf inp)) = true := by
  simp [paramsUsable, lastRunParamsOf, hs, hr, hip, hport]

/-- C1: in every run whose sender-start is judged successful, a timeout
timer of length `max_wait_ms = validCount * validInterval + 2000` is armed
at that moment, and when it fires before polling observes a terminal
status the run transitions to `Errored` with reason `timeout` and cleanup
still runs, sending both the responder-stop and the sender-stop commands. -/
theorem C1_timeout_errored_cleanup_both (inp : SubmitInputs) (env : RunEnv)
    (r out : String)
    (hs : jsTruthy inp.senderNodeId = true) (hr : jsTruthy inp.responderNodeId = true)
    (hip : jsTruthy inp.responderIp = true) (hport : jsTruthy inp.port = true)
    (hresp : env.responderStart = ExecOutcome.output r)
    (hsend : env.senderStart = ExecOutcome.output out)
    (hok : senderStartOk out = true)
    (hev : env.firstEvent = RunningEvent.timerFired) :
    (handleSubmitRun inp env).timerLengthMs
        = some (validCount inp.count * validInterval inp.interval + 2000) ∧
    (handleSubmitRun inp env).finalState = RunState.Errored ∧
    (handleSubmitRun inp env).terminalReason = some CleanupReason.timeout ∧
    ∃ c, (handleSubmitRun inp env).cleanup = some c ∧
      c.commands =
        [(inp.responderNodeId, stopResponderCommand (lastRunParamsOf inp)),
         (inp.senderNodeId, stopSenderCommand (lastRunParamsOf inp))] := by
  have hus := lastRunParams_usable inp hs hr hip hport
  have hcmds := stopAndCleanup_commands_eq CleanupReason.timeout (lastRunParamsOf inp)
      env.cleanupRespRes env.cleanupSendRes
      { testOutcome := TestOutcome.error, errorText := "", statusText := "" } hus
  simp only [handleSubmitRun, hs, hr, hresp, hsend, hok, hev]
  norm_num [timeoutOutcome, effectiveWaitTimeMs]
  rw [hcmds]
  simp [lastRunParamsOf]

/-- C5: when the responder-start command returns an error, the controller
reaches `Errored` and the sender-start command is never executed (its call
count is zero: the only command sent is the responder start). -/
theorem C5_responder_failure_no_sender_start (inp : SubmitInputs) (env : RunEnv)
    (msg : String)
    (hs : jsTruthy inp.senderNodeId = true) (hr : jsTruthy inp.responderNodeId = true)
    (hf : env.responderStart = ExecOutcome.failed msg) :
    (handleSubmitRun inp env).finalState = RunState.Errored ∧
    (handleSubmitRun inp env).senderStartCount = 0 ∧
    (handleSubmitRun inp env).startCommands =
      [(inp.responderNodeId, responderCommand inp.ipVersion inp.port)] := by
  simp [handleSubmitRun, hs, hr, hf, startFailureOutcome]

/-- C6: a sender-start is judged successful exactly when the output text,
compared case-insensitively, contains the marker "started successfully"
and does not contain the marker "error"; and whenever the judgement fails
the run becomes `Errored` with reason `error` and cleanup is invoked. -/
theorem C6_sender_start_judgement :
    (∀ s : String,
      senderStartOk s = true ↔
        ((jsToLower "started successfully").data <:+: (jsToLower s).data ∧
          ¬ (jsToLower "error").data <:+: (jsToLower s).data)) ∧
    (∀ (inp : SubmitInputs) (env : RunEnv) (r out : String),
      jsTruthy inp.senderNodeId = true → jsTruthy inp.responderNodeId = true →
      env.responderStart = ExecOutcome.output r →
      env.senderStart = ExecOutcome.output out →
      senderStartOk out = false →
      (handleSubmitRun inp env).finalState = RunState.Errored ∧
      (handleSubmitRun inp env).terminalReason = some CleanupReason.error ∧
      (handleSubmitRun inp env).cleanup.isSome = true) := by
  constructor
  · intro s
    have hlow : jsToLower "started successfully" = "started successfully" := by decide
    have hlow2 : jsToLower "error" = "error" := by decide
    rw [hlow, hlow2]
    simp only [senderStartOk, jsIncludes, Bool.and_eq_true, Bool.not_eq_true',
      decide_eq_true_eq, decide_eq_false_iff_not]
    exact and_comm
  · intro inp env r out hs hr hresp hsend hbad
    simp [handleSubmitRun, hs, hr, hresp, hsend, hbad, startFailureOutcome]

/-- Concrete inputs for the run-model witnesses. -/
def demoInp : SubmitInputs :=
  { senderNodeId := "nodeA", responderNodeId := "nodeB", responderIp := "10.0.0.2"
  , ipVersion := IpVersion.ipv4, port := "5000", count := some 50, interval := some 200
  , padding := "0", ttl := "64", tos := "0", doNotFragment := true }

/-- A run where both starts succeed and the overall timer fires first. -/
def demoEnvTimeout : RunEnv :=
  { responderStart := ExecOutcome.output "Twamp responder started successfully"
  , senderStart := ExecOutcome.output "Twamp sender started successfully"
  , firstEvent := RunningEvent.timerFired
  , cleanupRespRes := StopResult.ok, cleanupSendRes := StopResult.ok }

/-- A run where the responder start throws. -/
def demoEnvRespFail : RunEnv :=
  { responderStart := ExecOutcome.failed "API Error 500"
  , senderStart := ExecOutcome.output ""
  , firstEvent := RunningEvent.pollCompleted
  , cleanupRespRes := StopResult.ok, cleanupSendRes := StopResult.ok }

/-- A run where the sender start returns an error marker. -/
def demoEnvBadStart : RunEnv :=
  { responderStart := ExecOutcome.output "ok"
  , senderStart := ExecOutcome.output "error: busy"
  , firstEvent := RunningEvent.pollCompleted
  , cleanupRespRes := StopResult.ok, cleanupSendRes := StopResult.ok }

set_option maxRecDepth 40000 in
/-- Witness for C1 on a concrete timed-out run. -/
theorem C1_timeout_errored_cleanup_both_witness :
    (handleSubmitRun demoInp demoEnvTimeout).timerLengthMs
        = some (validCount demoInp.count * validInterval demoInp.interval + 2000) ∧
    (handleSubmitRun demoInp demoEnvTimeout).finalState = RunState.Errored ∧
    (handleSubmitRun demoInp demoEnvTimeout).terminalReason = some CleanupReason.timeout ∧
    ∃ c, (handleSubmitRun demoInp demoEnvTimeout).cleanup = some c ∧
      c.commands =
        [(demoInp.responderNodeId, stopResponderCommand (lastRunParamsOf demoInp)),
         (demoInp.senderNodeId, stopSenderCommand (lastRunParamsOf demoInp))] :=
  C1_timeout_errored_cleanup_both demoInp demoEnvTimeout
    "Twamp responder started successfully" "Twamp sender started successfully"
    (by decide) (by decide) (by decide) (by decide) rfl rfl (by decide) rfl

/-- Witness for C5 on a concrete failed responder start. -/
theorem C5_responder_failure_no_sender_start_witness :
    (handleSubmitRun demoInp demoEnvRespFail).finalState = RunState.Errored ∧
    (handleSubmitRun demoInp demoEnvRespFail).senderStartCount = 0 ∧
    (handleSubmitRun demoInp demoEnvRespFail).startCommands =
      [(demoInp.responderNodeId, responderCommand demoInp.ipVersion demoInp.port)] :=
  C5_responder_failure_no_sender_start demoInp demoEnvRespFail "API Error 500"
    (by decide) (by decide) rfl

set_option maxRecDepth 40000 in
/-- Witness for C6: the marker judgement accepts a success banner, and a
concrete error output drives the run to Errored with cleanup. -/
theorem C6_sender_start_judgement_witness :
    senderStartOk "Twamp sender started successfully" = true ∧
    ((handleSubmitRun demoInp demoEnvBadStart).finalState = RunState.Errored ∧
     (handleSubmitRun demoInp demoEnvBadStart).terminalReason = some CleanupReason.error ∧
     (handleSubmitRun demoInp demoEnvBadStart).cleanup.isSome = true) :=
  ⟨(C6_sender_start_judgement.1 "Twamp sender started successfully").mpr
      ⟨by decide, by decide⟩
  , C6_sender_start_judgement.2 demoInp demoEnvBadStart "ok" "error: busy"
      (by decide) (by decide) rfl rfl (by decide)⟩

/-! ## Claim C2 -/

/-- Concrete refs during a running test: the abort ref holds exactly what
`handleSubmit` left there, namely its initial null. -/
def demoRunningRefs : UiRefs :=
  { testOutcome := TestOutcome.running, pollingActive := true, progressActive := true
  , abortRef := abortRefDuringRun, lastRunParams := some demoParams }

set_option maxRecDepth 40000 in
/-- C2, evaluated at the failing input: clicking stop during a running
test records `stopped` as the first action (before any stop command), is a
no-op when repeated, and still sends the two stop commands — but it aborts
no controller at all, because `abortControllerRef` is never assigned
(`abortRefDuringRun = none`) while every in-flight start/poll fetch
carries a fresh controller's signal; so no in-flight network call is
aborted, contrary to the claim. -/
theorem C2_cancel_does_not_abort_inflight :
    ((handleStopClick demoRunningRefs StopResult.ok StopResult.ok).2.filter isAbortAction
        = []) ∧
    ((handleStopClick demoRunningRefs StopResult.ok StopResult.ok).2.countP isExecAction
        = 2) ∧
    ((handleStopClick demoRunningRefs StopResult.ok StopResult.ok).2.take 1
        = [UiAction.recordOutcome TestOutcome.stopped]) ∧
    ((handleStopClick demoRunningRefs StopResult.ok StopResult.ok).1.testOutcome
        = TestOutcome.stopped) ∧
    (handleStopClick { demoRunningRefs with testOutcome := TestOutcome.stopped }
        StopResult.ok StopResult.ok
      = ({ demoRunningRefs with testOutcome := TestOutcome.stopped }, [])) := by
  decide

/-! ## Claim C9 -/

/-- A payload with every numeric field absent and a present-but-empty
error string. -/
def emptyErrResult : RunResult :=
  { outbound_min_us := none, outbound_max_us := none, outbound_avg_us := none
  , outbound_jitter_us := none, inbound_min_us := none, inbound_max_us := none
  , inbound_avg_us := none, inbound_jitter_us := none, roundtrip_min_us := none
  , roundtrip_max_us := none, roundtrip_avg_us := none, roundtrip_jitter_us := none
  , total_loss_percent := none, packets_rx := none, packets_tx := none
  , error := some "" }

set_option maxRecDepth 1000000 in
/-- C9 counterexample: the error field is present (an empty string), yet
the report is character-for-character the report produced without any
error field, and no `Error:` line occurs in it — nothing was appended,
contrary to the claim that a present error field is appended verbatim. -/
theorem C9_counterexample :
    (emptyErrResult.error).isSome = true ∧
    formatTwampResults (some emptyErrResult)
      = formatTwampResults (some { emptyErrResult with error := none }) ∧
    ¬ ("Error:".data <:+: (formatTwampResults (some emptyErrResult)).data) := by
  refine ⟨rfl, rfl, by decide⟩

/-- C9 (amended): the formatter is total by construction; every duration
value is divided by 1000 (microseconds to milliseconds) and rendered with
fixed decimal precision (2 digits at every call site) plus an `ms`
suffix; every absent or non-finite duration value renders as "N/A"
instead of failing; and a present non-empty top-level error string is
appended verbatim in a trailing `Error:` line, while a present but empty
error string is omitted exactly like an absent one. -/
theorem C9_formatter_amended :
    (∀ (v : Option JsNumber) (prec : Nat),
      (v = none ∨ ∃ j, v = some j ∧ JsNumber.isFinite j = false) → dp v prec = "N/A") ∧
    (∀ (q : ℚ) (prec : Nat),
      dp (some (JsNumber.num q)) prec = toFixed prec (q / 1000) ++ "ms") ∧
    (∀ (r : RunResult) (e : String), r.error = some e → e ≠ "" →
      ∃ pre, formatTwampResults (some r) = pre ++ ("Error: " ++ e ++ "\n") ++ "\n") ∧
    (∀ r : RunResult, r.error = some "" →
      formatTwampResults (some r) = formatTwampResults (some { r with error := none })) := by
  refine ⟨?_, ?_, ?_, ?_⟩
  · intro v prec h
    rcases h with h | ⟨j, hj, hfin⟩
    · subst h; rfl
    · subst hj
      cases j with
      | num q => simp [JsNumber.isFinite] at hfin
      | nan => rfl
      | posInf => rfl
      | negInf => rfl
  · intro q prec
    rfl
  · intro r e he hne
    have hE : errLineText r = "Error: " ++ e ++ "\n" := by
      simp [errLineText, he, jsTruthy_of_ne e hne]
    simp only [formatTwampResults]
    rw [hE]
    exact ⟨_, rfl⟩
  · intro r he
    simp [formatTwampResults, errLineText, pktsText, lossText, totalPktsText, he, jsTruthy]

/-- Witness for C9 (amended) at concrete payloads. -/
theorem C9_formatter_amended_witness :
    dp none 2 = "N/A" ∧
    dp (some JsNumber.nan) 2 = "N/A" ∧
    (∃ pre, formatTwampResults (some { emptyErrResult with error := some "boom" })
        = pre ++ ("Error: " ++ "boom" ++ "\n") ++ "\n") :=
  ⟨C9_formatter_amended.1 none 2 (Or.inl rfl)
  , C9_formatter_amended.1 (some JsNumber.nan) 2 (Or.inr ⟨JsNumber.nan, rfl, rfl⟩)
  , C9_formatter_amended.2.2.1 { emptyErrResult with error := some "boom" } "boom" rfl
      (by decide)⟩
